import Mathlib

/-!
Shallow embedding of the amaunator polling daemon core
(`src/amaunator/models.py`, `src/amaunator/core/manager.py`,
`src/amaunator/core/monitoring.py`, `src/amaunator/outputs.py`,
`src/amaunator/api/routes.py`) together with theorems settling the
spec claims about it.

Timestamps (Python floats from `loop.time()` / result timestamps) are
modelled as rationals; Python dicts as insertion-ordered association
lists keyed by an opaque target id (UUIDs modelled as naturals).
-/

namespace Amaunator

/-- Opaque target identifier (models `uuid.UUID`). -/
abbrev TargetId := Nat

/-- Insertion-ordered map, modelling a Python `dict[UUID, α]`. -/
abbrev Dict (α : Type) := List (TargetId × α)

namespace Dict

/-- `d[k]` lookup (`dict.get`): first entry with key `k`, if any. -/
def lookup : Dict α → TargetId → Option α
  | [], _ => none
  | p :: rest, k => if p.1 = k then some p.2 else lookup rest k

/-- `k in d` membership test. -/
def hasKey (d : Dict α) (k : TargetId) : Bool :=
  (d.lookup k).isSome

/-- `d[k] = v` assignment: replace in place if present, else append
(Python dicts preserve insertion order). -/
def insert : Dict α → TargetId → α → Dict α
  | [], k, v => [(k, v)]
  | p :: rest, k, v => if p.1 = k then (k, v) :: rest else p :: insert rest k v

/-- `del d[k]`. -/
def erase : Dict α → TargetId → Dict α
  | [], _ => []
  | p :: rest, k => if p.1 = k then erase rest k else p :: erase rest k

/-- `len(d)`. -/
def size (d : Dict α) : Nat :=
  List.length d

/-- `list(d.keys())`. -/
def keys (d : Dict α) : List TargetId :=
  List.map Prod.fst d

end Dict

/-! ### Data model (`models.py`) -/

/-- `TargetCreate`: creation request schema (name, interval, timeout).
Python ints are unconstrained, hence `Int`. -/
structure TargetCreate where
  name : String
  interval : Int
  timeout : Int
deriving DecidableEq, Repr

/-- `Target`: internal representation, a `TargetCreate` plus generated id. -/
structure Target where
  name : String
  interval : Int
  timeout : Int
  id : TargetId
deriving DecidableEq, Repr

/-- `TargetStatus`: mutable per-target status with pydantic defaults
(`last_check=None`, `last_value=None`, `check_count=0`, `error_count=0`). -/
structure TargetStatus where
  last_check : Option ℚ := none
  last_value : Option Int := none
  check_count : Nat := 0
  error_count : Nat := 0
deriving DecidableEq, Repr

/-- The all-default `TargetStatus()`. -/
def TargetStatus.init : TargetStatus := {}

/-- `TargetResult`: transient queue message. The `timestamp` field's
pydantic default is the constant `0.0` (`default_factory=lambda: 0.0`). -/
structure TargetResult where
  target_id : TargetId
  value : Int
  timestamp : ℚ := 0
deriving DecidableEq, Repr

/-- `TargetCreate.check_interval` model validator: rejects
`interval < timeout` with a `ValueError`, else returns the model. -/
def check_interval (c : TargetCreate) : Except String TargetCreate :=
  if c.interval < c.timeout then
    Except.error "Interval must be equal to or greater than timeout"
  else Except.ok c

/-! ### Supervisor (`core/manager.py`, class `MonitorManager`)

An `asyncio.Task` handle carries no registry-relevant data, so the
`tasks` map stores `Unit`; a stop event is its set/unset flag. -/

structure MonitorManager where
  tasks : Dict Unit
  stop_events : Dict Bool
  targets : Dict Target
  target_statuses : Dict TargetStatus
deriving DecidableEq, Repr

/-- A freshly constructed manager: all four maps empty. -/
def MonitorManager.empty : MonitorManager :=
  { tasks := [], stop_events := [], targets := [], target_statuses := [] }

namespace MonitorManager

/-- `get_target`. -/
def get_target (m : MonitorManager) (target_id : TargetId) : Option Target :=
  m.targets.lookup target_id

/-- `get_active_count`: `len(self.tasks)`. -/
def get_active_count (m : MonitorManager) : Nat :=
  m.tasks.size

/-- `update_target_status(target_id, value, timestamp)`: ensures a status
entry exists (creating a default one when absent), then increments
`check_count`, sets `last_check`/`last_value`, and increments
`error_count` when `value < 0`. -/
def update_target_status (m : MonitorManager) (target_id : TargetId)
    (value : Int) (timestamp : ℚ) : MonitorManager :=
  let st0 :=
    if m.target_statuses.hasKey target_id then m.target_statuses
    else m.target_statuses.insert target_id TargetStatus.init
  let status := (st0.lookup target_id).getD TargetStatus.init
  let status :=
    { status with
      check_count := status.check_count + 1
      last_check := some timestamp
      last_value := some value }
  let status :=
    if value < 0 then { status with error_count := status.error_count + 1 }
    else status
  { m with target_statuses := st0.insert target_id status }

/-- `start_monitoring(target)`: no-op when a task already exists for the
id; otherwise stores the definition, a fresh status, a cleared stop
event, and the spawned task handle. -/
def start_monitoring (m : MonitorManager) (target : Target) : MonitorManager :=
  if m.tasks.hasKey target.id then m
  else
    { m with
      targets := m.targets.insert target.id target
      target_statuses := m.target_statuses.insert target.id TargetStatus.init
      stop_events := m.stop_events.insert target.id false
      tasks := m.tasks.insert target.id () }

/-- `stop_monitoring(target_id)`: no-op when no task exists for the id;
otherwise sets and removes the stop event, removes the task handle, and
removes the definition and status entries when present. -/
def stop_monitoring (m : MonitorManager) (target_id : TargetId) : MonitorManager :=
  if ¬ m.tasks.hasKey target_id then m
  else
    let stop_events :=
      if m.stop_events.hasKey target_id then
        (m.stop_events.insert target_id true).erase target_id
      else m.stop_events
    let tasks := m.tasks.erase target_id
    let targets :=
      if m.targets.hasKey target_id then m.targets.erase target_id
      else m.targets
    let target_statuses :=
      if m.target_statuses.hasKey target_id then m.target_statuses.erase target_id
      else m.target_statuses
    { tasks := tasks, stop_events := stop_events,
      targets := targets, target_statuses := target_statuses }

/-- `stop_all`: `stop_monitoring` on a snapshot of the task keys. -/
def stop_all (m : MonitorManager) : MonitorManager :=
  (m.tasks.keys).foldl stop_monitoring m

end MonitorManager

/-! ### Poller (`core/monitoring.py`, `poll`)

One invocation of the mock poll either runs its body for some duration
and produces a reading, or its body raises.  `asyncio.timeout(timeout)`
caps the attempt: if the body has not finished by `timeout` seconds the
block is cancelled, `TimeoutError` is caught and `-1` returned; any
other exception is also caught and mapped to `-1`. -/

/-- One run of the poll body: either it would sleep `duration` seconds
and return `reading` (`randint(0, 100)`), or it raises after
`duration` seconds. -/
inductive PollRun where
  | completes (duration : Nat) (reading : Nat)
  | raises (duration : Nat)
deriving DecidableEq, Repr

/-- `poll(target)` return value for a given run of its body. -/
def poll (target : Target) (run : PollRun) : Int :=
  match run with
  | .completes duration reading =>
      if target.timeout < (duration : Int) then -1 else (reading : Int)
  | .raises _ => -1

/-- Wall-clock seconds one `poll(target)` invocation takes: the body
runs until it finishes or until `asyncio.timeout` cancels it. -/
def pollElapsed (target : Target) (run : PollRun) : Int :=
  match run with
  | .completes duration _ => min (duration : Int) target.timeout
  | .raises duration => min (duration : Int) target.timeout

/-- `monitor_stream` body: one cycle builds
`TargetResult(target_id=target.id, value=result)` — the `timestamp`
field is left to its pydantic default `0.0` no matter at what
wall-clock time `now` the sample is produced. -/
def monitor_sample (target : Target) (result : Int) (now : ℚ) : TargetResult :=
  let _ := now
  { target_id := target.id, value := result }

/-! ### Drift-corrected scheduler (`core/monitoring.py`, `periodic_task`)

The wrapper sets `next_run_time = loop.time()` on entry and adds
`interval` after every cycle; each cycle sleeps until the deadline
(`delay = max 0 (next_run_time - now)`), runs the body (bounded by the
poll timeout), and yields.  `nextRunTime start I k` is the deadline of
the k-th cycle (0-based), `emitTime` the instant the k-th sample is
emitted, given the k-th cycle's execution time `d k`. -/

def nextRunTime (start I : ℚ) : Nat → ℚ
  | 0 => start
  | k + 1 => nextRunTime start I k + I

def emitTime (start I : ℚ) (d : Nat → ℚ) : Nat → ℚ
  | 0 => max start (nextRunTime start I 0) + d 0
  | k + 1 => max (emitTime start I d k) (nextRunTime start I (k + 1)) + d (k + 1)

/-! ### Result pipeline (`outputs.py`, `OutputProcessor.run`)

Per dequeued item the consumer: validates the item, resolves the
target's name, calls `update_target_status`, awaits `handler.handle`,
bumps `processed_count` and the processed/target-value metrics, and
calls `queue.task_done()`.  Any exception inside that block lands in
the `except` branch, which bumps `error_count` and the
processing-errors metric, and the `while` loop moves on.  A `QItem`
records at which stage (if any) the processing of that item raises. -/

/-- Stage of `OutputProcessor.run`'s per-item block at which an
exception is raised, if any. -/
inductive FaultPoint where
  | none
  | atValidate
  | atResolve
  | atUpdate
  | atHandle
  | atMetrics
deriving DecidableEq, Repr

/-- One queue item together with the fault its processing hits. -/
structure QItem where
  result : TargetResult
  fault : FaultPoint
deriving DecidableEq, Repr

/-- Consumer-side state: the injected manager, the processor's own
counters, the metric counters it bumps, the sequence of completed
`handler.handle` calls, and the number of `queue.task_done()` calls. -/
structure ProcState where
  manager : MonitorManager
  processed_count : Nat
  error_count : Nat
  metric_processed : Nat
  metric_processing_errors : Nat
  outputs : List (TargetResult × String)
  task_done_count : Nat
deriving DecidableEq, Repr

/-- The `except Exception` branch: bump `error_count` and the
processing-errors metric, keep everything else. -/
def onItemError (s : ProcState) : ProcState :=
  { s with
    error_count := s.error_count + 1
    metric_processing_errors := s.metric_processing_errors + 1 }

/-- One iteration of the consumer loop body on a dequeued item,
following the source order: validate, resolve name, update status,
handle, bump `processed_count` and metrics, `task_done`. -/
def processItem (s : ProcState) (item : QItem) : ProcState :=
  if item.fault = .atValidate then onItemError s
  else
    let r := item.result
    let target_name :=
      match s.manager.get_target r.target_id with
      | some t => t.name
      | none => "unknown"
    if item.fault = .atResolve then onItemError s
    else if item.fault = .atUpdate then onItemError s
    else
      let s := { s with
        manager := s.manager.update_target_status r.target_id r.value r.timestamp }
      if item.fault = .atHandle then onItemError s
      else
        let s := { s with outputs := s.outputs ++ [(r, target_name)] }
        let s := { s with processed_count := s.processed_count + 1 }
        if item.fault = .atMetrics then onItemError s
        else
          let s := { s with metric_processed := s.metric_processed + 1 }
          { s with task_done_count := s.task_done_count + 1 }

/-- The consumer loop over a list of dequeued items. -/
def runLoop (s : ProcState) (items : List QItem) : ProcState :=
  items.foldl processItem s

/-- Unfinished-task count of the `asyncio.Queue` after the consumer has
processed `items`: each `put` increments it, each `task_done`
decrements it; `queue.join()` returns only when it reaches zero. -/
def unfinishedTasks (s : ProcState) (items : List QItem) : Int :=
  (items.length : Int) - ((runLoop s items).task_done_count - s.task_done_count : Int)

/-! ### API route (`api/routes.py`, `add_target`)

FastAPI parses the request body into `TargetCreate` (running its
`check_interval` validator; failure is a synchronous validation error
and the route body never runs), then the route builds a `Target` with
a fresh id and calls `start_monitoring`. -/

def add_target (m : MonitorManager) (c : TargetCreate) (fresh_id : TargetId) :
    Except String Target × MonitorManager :=
  match check_interval c with
  | .error e => (.error e, m)
  | .ok c' =>
      let target : Target :=
        { name := c'.name, interval := c'.interval, timeout := c'.timeout,
          id := fresh_id }
      (.ok target, m.start_monitoring target)

/-! ### Derived notions used in the statements -/

/-- The spec's registry lock-step invariant: the ids carrying a
`Target`, a `TargetStatus`, a task, and a stop event are the same. -/
def lockstep (m : MonitorManager) : Prop :=
  ∀ k : TargetId,
    m.targets.hasKey k = m.tasks.hasKey k ∧
    m.target_statuses.hasKey k = m.tasks.hasKey k ∧
    m.stop_events.hasKey k = m.tasks.hasKey k

/-- Composite effect of one `update_target_status` call on one
`TargetStatus` record. -/
def bumpStatus (s : TargetStatus) (value : Int) (timestamp : ℚ) : TargetStatus :=
  { last_check := some timestamp
    last_value := some value
    check_count := s.check_count + 1
    error_count := s.error_count + (if value < 0 then 1 else 0) }

/-- Processing a whole sequence of `(value, timestamp)` results for one
target through `update_target_status`. -/
def applyResults (m : MonitorManager) (target_id : TargetId)
    (rs : List (Int × ℚ)) : MonitorManager :=
  rs.foldl (fun m vr => m.update_target_status target_id vr.1 vr.2) m

/-- Number of error readings in a result sequence (`value < 0`). -/
def countErrors (rs : List (Int × ℚ)) : Nat :=
  rs.countP (fun p => decide (p.1 < 0))

/-! ## Helper lemmas about `Dict` -/

namespace Dict

@[simp]
theorem lookup_nil (k : TargetId) : Dict.lookup ([] : Dict α) k = none := rfl

theorem lookup_insert (d : Dict α) (k k' : TargetId) (v : α) :
    (d.insert k v).lookup k' = if k = k' then some v else d.lookup k' := by
  induction d with
  | nil => simp [Dict.insert, Dict.lookup]
  | cons p rest ih =>
      by_cases hp : p.1 = k
      · by_cases hk : k = k' <;> simp [Dict.insert, Dict.lookup, hp, hk]
      · by_cases hq : p.1 = k'
        · have hk : ¬ k = k' := fun h => hp (h ▸ hq)
          have hk' : ¬ k' = k := fun h => hk h.symm
          simp [Dict.insert, Dict.lookup, hp, hq, hk, hk']
        · simp [Dict.insert, Dict.lookup, hp, hq, ih]

theorem lookup_erase (d : Dict α) (k k' : TargetId) :
    (d.erase k).lookup k' = if k = k' then none else d.lookup k' := by
  induction d with
  | nil => simp [Dict.erase]
  | cons p rest ih =>
      by_cases hp : p.1 = k
      · by_cases hk : k = k'
        · subst hk
          simp [Dict.erase, Dict.lookup, hp, ih]
        · have hq : ¬ p.1 = k' := fun h => hk (hp.symm.trans h)
          simp [Dict.erase, Dict.lookup, hp, hk, hq, ih]
      · by_cases hq : p.1 = k'
        · have hk : ¬ k = k' := fun h => hp (h ▸ hq)
          have hk' : ¬ k' = k := fun h => hk h.symm
          simp [Dict.erase, Dict.lookup, hp, hq, hk, hk']
        · simp [Dict.erase, Dict.lookup, hp, hq, ih]

theorem hasKey_insert (d : Dict α) (k k' : TargetId) (v : α) :
    (d.insert k v).hasKey k' = (k = k' || d.hasKey k') := by
  by_cases hk : k = k' <;> simp [Dict.hasKey, lookup_insert, hk]

theorem hasKey_erase (d : Dict α) (k k' : TargetId) :
    (d.erase k).hasKey k' = (!(k = k') && d.hasKey k') := by
  by_cases hk : k = k' <;> simp [Dict.hasKey, lookup_erase, hk]

theorem hasKey_iff_lookup (d : Dict α) (k : TargetId) :
    d.hasKey k = true ↔ ∃ v, d.lookup k = some v := by
  simp [Dict.hasKey, Option.isSome_iff_exists]

theorem hasKey_false_lookup (d : Dict α) (k : TargetId)
    (h : d.hasKey k = false) : d.lookup k = none := by
  cases hl : d.lookup k with
  | none => rfl
  | some v => simp [Dict.hasKey, hl] at h

end Dict

/-! ## Helper lemmas about the supervisor -/

namespace MonitorManager

theorem update_targets_eq (m : MonitorManager) (tid : TargetId) (v : Int) (ts : ℚ) :
    (m.update_target_status tid v ts).targets = m.targets := rfl

theorem update_tasks_eq (m : MonitorManager) (tid : TargetId) (v : Int) (ts : ℚ) :
    (m.update_target_status tid v ts).tasks = m.tasks := rfl

theorem update_stop_events_eq (m : MonitorManager) (tid : TargetId) (v : Int) (ts : ℚ) :
    (m.update_target_status tid v ts).stop_events = m.stop_events := rfl

theorem update_lookup_self (m : MonitorManager) (tid : TargetId) (v : Int) (ts : ℚ) :
    (m.update_target_status tid v ts).target_statuses.lookup tid =
      some (bumpStatus ((m.target_statuses.lookup tid).getD TargetStatus.init) v ts) := by
  by_cases h : m.target_statuses.hasKey tid = true
  · by_cases hv : v < 0 <;>
      simp [update_target_status, bumpStatus, h, hv, Dict.lookup_insert]
  · have h' : m.target_statuses.hasKey tid = false := by
      simpa using h
    have hl := Dict.hasKey_false_lookup m.target_statuses tid h'
    by_cases hv : v < 0 <;>
      simp [update_target_status, bumpStatus, h', hv, hl, Dict.lookup_insert,
        TargetStatus.init]

theorem update_lookup_ne (m : MonitorManager) (tid : TargetId) (v : Int) (ts : ℚ)
    (k : TargetId) (hk : ¬ tid = k) :
    (m.update_target_status tid v ts).target_statuses.lookup k =
      m.target_statuses.lookup k := by
  by_cases h : m.target_statuses.hasKey tid = true <;>
    simp [update_target_status, h, Dict.lookup_insert, hk]

theorem update_statuses_hasKey (m : MonitorManager) (tid : TargetId) (v : Int)
    (ts : ℚ) (k : TargetId) :
    (m.update_target_status tid v ts).target_statuses.hasKey k =
      (tid = k || m.target_statuses.hasKey k) := by
  by_cases h : m.target_statuses.hasKey tid = true <;>
    by_cases hk : tid = k <;>
      simp [update_target_status, h, hk, Dict.hasKey_insert]

theorem start_of_hasKey (m : MonitorManager) (t : Target)
    (h : m.tasks.hasKey t.id = true) : m.start_monitoring t = m := by
  simp [start_monitoring, h]

theorem start_lockstep (m : MonitorManager) (t : Target) (h : lockstep m) :
    lockstep (m.start_monitoring t) := by
  by_cases ht : m.tasks.hasKey t.id = true
  · rw [start_of_hasKey m t ht]; exact h
  · intro k
    obtain ⟨h1, h2, h3⟩ := h k
    simp only [start_monitoring, ht, if_false]
    by_cases hk : t.id = k <;> simp [Dict.hasKey_insert, hk, h1, h2, h3]

theorem stop_lockstep (m : MonitorManager) (tid : TargetId) (h : lockstep m) :
    lockstep (m.stop_monitoring tid) := by
  by_cases ht : m.tasks.hasKey tid = true
  · have he : m.stop_events.hasKey tid = true := (h tid).2.2.trans ht
    have htg : m.targets.hasKey tid = true := (h tid).1.trans ht
    have hst : m.target_statuses.hasKey tid = true := (h tid).2.1.trans ht
    intro k
    obtain ⟨h1, h2, h3⟩ := h k
    simp only [stop_monitoring, ht, he, htg, hst, not_true, if_true, if_false,
      ite_true, ite_false]
    by_cases hk : tid = k <;>
      simp [Dict.hasKey_erase, Dict.hasKey_insert, hk, h1, h2, h3]
  · simp only [stop_monitoring, ht]
    simpa using h

theorem foldl_stop_lockstep (l : List TargetId) (m : MonitorManager)
    (h : lockstep m) : lockstep (l.foldl stop_monitoring m) := by
  induction l generalizing m with
  | nil => exact h
  | cons x rest ih => exact ih _ (stop_lockstep m x h)

theorem stop_all_lockstep (m : MonitorManager) (h : lockstep m) :
    lockstep m.stop_all := by
  exact foldl_stop_lockstep _ _ h

theorem update_registered_lockstep (m : MonitorManager) (tid : TargetId)
    (v : Int) (ts : ℚ) (h : lockstep m) (ht : m.tasks.hasKey tid = true) :
    lockstep (m.update_target_status tid v ts) := by
  intro k
  obtain ⟨h1, h2, h3⟩ := h k
  have hst : m.target_statuses.hasKey tid = true := (h tid).2.1.trans ht
  rw [update_targets_eq, update_tasks_eq, update_stop_events_eq,
    update_statuses_hasKey]
  refine ⟨h1, ?_, h3⟩
  by_cases hk : tid = k
  · subst hk
    simp [hst, h2, ht]
  · simp [hk, h2]

theorem applyResults_lookup (target_id : TargetId) (rs : List (Int × ℚ)) :
    ∀ (m : MonitorManager) (s : TargetStatus),
      m.target_statuses.lookup target_id = some s →
      ∃ s', (applyResults m target_id rs).target_statuses.lookup target_id = some s' ∧
        s'.check_count = s.check_count + rs.length ∧
        s'.error_count = s.error_count + countErrors rs := by
  induction rs with
  | nil =>
      intro m s h
      exact ⟨s, by simpa [applyResults] using h, by simp, by simp [countErrors]⟩
  | cons vr rest ih =>
      intro m s h
      have h1 : (m.update_target_status target_id vr.1 vr.2).target_statuses.lookup
          target_id = some (bumpStatus s vr.1 vr.2) := by
        rw [update_lookup_self]
        simp [h]
      obtain ⟨s', hs', hc, he⟩ := ih _ _ h1
      refine ⟨s', by simpa [applyResults, List.foldl] using hs', ?_, ?_⟩
      · rw [hc]
        simp only [bumpStatus, List.length_cons]
        omega
      · rw [he]
        simp only [bumpStatus, countErrors, List.countP_cons]
        by_cases hv : vr.1 < 0
        · simp only [bumpStatus, hv, if_pos, decide_eq_true_eq]
          omega
        · simp only [bumpStatus, hv, decide_eq_true_eq]
          omega

end MonitorManager

/-! ## Helper lemmas about the scheduler -/

theorem nextRunTime_closed (start I : ℚ) (k : Nat) :
    nextRunTime start I k = start + k * I := by
  induction k with
  | zero => simp [nextRunTime]
  | succ k ih =>
      rw [nextRunTime, ih]
      push_cast
      ring

theorem emitTime_bounds (start I T : ℚ) (d : Nat → ℚ) (hTI : T ≤ I)
    (hd : ∀ k, 0 ≤ d k ∧ d k ≤ T) (k : Nat) :
    nextRunTime start I k ≤ emitTime start I d k ∧
      emitTime start I d k ≤ nextRunTime start I k + T := by
  induction k with
  | zero =>
      obtain ⟨h0, h1⟩ := hd 0
      rw [emitTime, nextRunTime]
      constructor
      · simp only [nextRunTime, max_self]
        linarith
      · simp only [nextRunTime, max_self]
        linarith
  | succ k ih =>
      obtain ⟨h0, h1⟩ := hd (k + 1)
      have hle : emitTime start I d k ≤ nextRunTime start I (k + 1) := by
        have := ih.2
        rw [nextRunTime]
        linarith
      rw [emitTime]
      constructor
      · have := le_max_right (emitTime start I d k) (nextRunTime start I (k + 1))
        linarith
      · rw [max_eq_right hle]
        linarith

/-! ## Helper lemmas about the pipeline consumer -/

theorem processItem_fault (s : ProcState) (item : QItem)
    (h : ¬ item.fault = .none) :
    (processItem s item).error_count = s.error_count + 1 ∧
    (processItem s item).metric_processing_errors =
      s.metric_processing_errors + 1 := by
  cases hf : item.fault <;> simp [hf] at h ⊢ <;>
    simp [processItem, onItemError, hf]

theorem processItem_task_done (s : ProcState) (item : QItem) :
    (processItem s item).task_done_count =
      s.task_done_count + (if item.fault = .none then 1 else 0) := by
  cases hf : item.fault <;> simp [processItem, onItemError, hf]

theorem runLoop_task_done (items : List QItem) :
    ∀ s : ProcState, (runLoop s items).task_done_count =
      s.task_done_count + items.countP (fun it => decide (it.fault = .none)) := by
  induction items with
  | nil => intro s; simp [runLoop]
  | cons item rest ih =>
      intro s
      have hstep := processItem_task_done s item
      calc (runLoop s (item :: rest)).task_done_count
          = (runLoop (processItem s item) rest).task_done_count := rfl
        _ = (processItem s item).task_done_count +
              rest.countP (fun it => decide (it.fault = .none)) := ih _
        _ = s.task_done_count +
              (item :: rest).countP (fun it => decide (it.fault = .none)) := by
            rw [hstep, List.countP_cons]
            by_cases hf : item.fault = .none
            · simp [hf]
              omega
            · simp [hf]

theorem countP_none_lt (items : List QItem) (item : QItem)
    (hmem : item ∈ items) (hf : item.fault = .atHandle) :
    items.countP (fun it => decide (it.fault = .none)) < items.length := by
  induction items with
  | nil => cases hmem
  | cons a rest ih =>
      rw [List.countP_cons, List.length_cons]
      rcases List.mem_cons.mp hmem with h | h
      · subst h
        have := List.countP_le_length (l := rest) (p := fun it => decide (it.fault = .none))
        simp [hf]
        omega
      · have := ih h
        have hb : (if decide (a.fault = FaultPoint.none) = true then 1 else 0) ≤ 1 := by
          split <;> omega
        omega

/-! ## Claims -/

/-- C1, counterexample: calling `update_target_status` with the id 7, which is
not registered anywhere in the empty manager, does NOT leave the registry
state unchanged — it creates a fresh status entry for that id. -/
theorem update_unknown_id_changes_state :
    MonitorManager.empty.update_target_status 7 5 1 ≠ MonitorManager.empty := by
  decide

/-- C1 (amended): for an id with no status entry, `update_target_status`
raises no error and leaves the targets, tasks and stop-event maps unchanged,
but it does not leave the status map unchanged: it creates a fresh status
entry for the id, set to one check with the given value and timestamp (and
one error iff the value is negative); all other status entries keep their
values. -/
theorem update_unknown_id_behavior (m : MonitorManager) (tid : TargetId)
    (v : Int) (ts : ℚ) (h : m.target_statuses.hasKey tid = false) :
    (m.update_target_status tid v ts).targets = m.targets ∧
    (m.update_target_status tid v ts).tasks = m.tasks ∧
    (m.update_target_status tid v ts).stop_events = m.stop_events ∧
    (m.update_target_status tid v ts).target_statuses.lookup tid =
      some { last_check := some ts, last_value := some v, check_count := 1,
             error_count := if v < 0 then 1 else 0 } ∧
    ∀ k, ¬ tid = k →
      (m.update_target_status tid v ts).target_statuses.lookup k =
        m.target_statuses.lookup k := by
  refine ⟨rfl, rfl, rfl, ?_, fun k hk => MonitorManager.update_lookup_ne m tid v ts k hk⟩
  rw [MonitorManager.update_lookup_self, Dict.hasKey_false_lookup _ _ h]
  simp [bumpStatus, TargetStatus.init]

/-- C1 witness at concrete input: id 7 unregistered in the empty manager. -/
theorem update_unknown_id_behavior_witness :
    MonitorManager.empty.target_statuses.hasKey 7 = false ∧
    (MonitorManager.empty.update_target_status 7 5 1).target_statuses.lookup 7 =
      some { last_check := some 1, last_value := some 5, check_count := 1,
             error_count := 0 } :=
  ⟨by decide,
   by
    have h := (update_unknown_id_behavior MonitorManager.empty 7 5 1 (by decide)).2.2.2.1
    simpa using h⟩

/-- C2, counterexample: the empty manager satisfies the lock-step key-set
invariant, but one `update_target_status` call on the unregistered id 7
breaks it — the status map gains key 7 while the targets/tasks maps do not. -/
theorem lockstep_broken_by_unknown_update :
    lockstep MonitorManager.empty ∧
    ¬ lockstep (MonitorManager.empty.update_target_status 7 5 1) := by
  constructor
  · exact fun k => ⟨rfl, rfl, rfl⟩
  · intro h
    exact absurd (h 7).2.1 (by decide)

/-- C2 (amended): the key-set lock-step invariant over the four registry maps
is preserved by `start_monitoring`, `stop_monitoring` and `stop_all`, and by
`update_target_status` when the id is registered; the unregistered-id case of
`update_target_status` is excluded, since it violates the invariant. -/
theorem registry_lockstep_preserved (m : MonitorManager) (t : Target)
    (tid tid' : TargetId) (v : Int) (ts : ℚ) (h : lockstep m) :
    lockstep (m.start_monitoring t) ∧
    lockstep (m.stop_monitoring tid) ∧
    lockstep m.stop_all ∧
    (m.tasks.hasKey tid' = true → lockstep (m.update_target_status tid' v ts)) :=
  ⟨MonitorManager.start_lockstep m t h,
   MonitorManager.stop_lockstep m tid h,
   MonitorManager.stop_all_lockstep m h,
   fun ht => MonitorManager.update_registered_lockstep m tid' v ts h ht⟩

/-- C2 witness at concrete input: the empty manager satisfies the invariant,
and starting one target preserves it. -/
theorem registry_lockstep_preserved_witness :
    lockstep MonitorManager.empty ∧
    lockstep (MonitorManager.empty.start_monitoring ⟨"t", 10, 2, 1⟩) :=
  ⟨fun _ => ⟨rfl, rfl, rfl⟩,
   (registry_lockstep_preserved MonitorManager.empty ⟨"t", 10, 2, 1⟩ 1 1 5 1
      (fun _ => ⟨rfl, rfl, rfl⟩)).1⟩

/-- C5: for a registered target, one `update_target_status` call increments
`check_count` by exactly 1, sets `last_check`/`last_value` to the given
timestamp and value, and adds 1 to `error_count` iff the value is negative;
and starting from a fresh zero status, after a sequence of N processed
results of which E have negative values, `check_count = N`, `error_count = E`
and `error_count ≤ check_count`. -/
theorem update_status_counting (m : MonitorManager) (tid : TargetId)
    (s : TargetStatus) (v : Int) (ts : ℚ)
    (hs : m.target_statuses.lookup tid = some s)
    (m0 : MonitorManager)
    (h0 : m0.target_statuses.lookup tid = some TargetStatus.init)
    (rs : List (Int × ℚ)) :
    (m.update_target_status tid v ts).target_statuses.lookup tid =
      some { last_check := some ts, last_value := some v,
             check_count := s.check_count + 1,
             error_count := s.error_count + (if v < 0 then 1 else 0) } ∧
    ∃ sN, (applyResults m0 tid rs).target_statuses.lookup tid = some sN ∧
      sN.check_count = rs.length ∧
      sN.error_count = countErrors rs ∧
      sN.error_count ≤ sN.check_count := by
  constructor
  · rw [MonitorManager.update_lookup_self, hs]
    simp [bumpStatus]
  · obtain ⟨sN, h1, h2, h3⟩ := MonitorManager.applyResults_lookup tid rs m0 _ h0
    have hc : sN.check_count = rs.length := by
      simpa [TargetStatus.init] using h2
    have he : sN.error_count = countErrors rs := by
      simpa [TargetStatus.init] using h3
    have hle : countErrors rs ≤ rs.length := List.countP_le_length _
    exact ⟨sN, h1, hc, he, by omega⟩

/-- C5 witness at concrete input: a freshly started target processing the
results [(5, 1), (-3, 2)]. -/
theorem update_status_counting_witness :
    (MonitorManager.empty.start_monitoring ⟨"t", 10, 2, 1⟩).target_statuses.lookup 1 =
      some TargetStatus.init ∧
    ∃ sN, (applyResults (MonitorManager.empty.start_monitoring ⟨"t", 10, 2, 1⟩) 1
        [(5, 1), (-3, 2)]).target_statuses.lookup 1 = some sN ∧
      sN.check_count = 2 ∧
      sN.error_count = countErrors [(5, 1), (-3, 2)] ∧
      sN.error_count ≤ sN.check_count :=
  ⟨by decide,
   (update_status_counting (MonitorManager.empty.start_monitoring ⟨"t", 10, 2, 1⟩)
      1 TargetStatus.init (-1) 3 (by decide)
      (MonitorManager.empty.start_monitoring ⟨"t", 10, 2, 1⟩) (by decide)
      [(5, 1), (-3, 2)]).2⟩

/-- C9: when a task already exists for the target's id, `start_monitoring`
returns the registry completely unchanged, and in particular calling
`start_monitoring` twice from the empty registry leaves the active count
at 1. -/
theorem start_monitoring_idempotent (m : MonitorManager) (t : Target)
    (h : m.tasks.hasKey t.id = true) :
    m.start_monitoring t = m ∧
    ((MonitorManager.empty.start_monitoring t).start_monitoring t).get_active_count = 1 := by
  refine ⟨MonitorManager.start_of_hasKey m t h, ?_⟩
  simp [MonitorManager.start_monitoring, MonitorManager.get_active_count,
    MonitorManager.empty, Dict.hasKey, Dict.lookup, Dict.insert, Dict.size]

/-- C9 witness at concrete input: double start of one target. -/
theorem start_monitoring_idempotent_witness :
    (MonitorManager.empty.start_monitoring ⟨"t", 10, 2, 1⟩).tasks.hasKey 1 = true ∧
    ((MonitorManager.empty.start_monitoring ⟨"t", 10, 2, 1⟩).start_monitoring
        ⟨"t", 10, 2, 1⟩ =
      MonitorManager.empty.start_monitoring ⟨"t", 10, 2, 1⟩ ∧
     ((MonitorManager.empty.start_monitoring ⟨"t", 10, 2, 1⟩).start_monitoring
        ⟨"t", 10, 2, 1⟩).get_active_count = 1) :=
  ⟨by decide,
   start_monitoring_idempotent (MonitorManager.empty.start_monitoring ⟨"t", 10, 2, 1⟩)
     ⟨"t", 10, 2, 1⟩ (by decide)⟩

/-- C3, counterexample: with start time 0, interval 5 and timeout 2, the
scheduler's first deadline is 0 — not `start + interval = 5` — and with zero
execution delay the 1st emission happens at time 0, which is more than one
poll-timeout away from `start + 1 * interval = 5`. -/
theorem scheduler_first_cycle_immediate :
    nextRunTime 0 5 0 = 0 ∧
    nextRunTime 0 5 0 ≠ 0 + 5 ∧
    emitTime 0 5 (fun _ => 0) 0 = 0 ∧
    emitTime 0 5 (fun _ => 0) 0 < 0 + 1 * 5 - 2 := by
  refine ⟨rfl, by norm_num [nextRunTime], ?_, ?_⟩
  · simp [emitTime, nextRunTime]
  · simp [emitTime, nextRunTime]
    norm_num

/-- C3 (amended): the scheduler anchors its deadline sequence to the start
time itself: the first deadline equals the start time (the first sample is
emitted without waiting a full interval), each subsequent deadline advances
by exactly the interval from the previous deadline (not from completion
time), so the k-th deadline is `start + (k-1)*I` (0-indexed: `start + k*I`),
and when every cycle's execution time is between 0 and the poll timeout
`T ≤ I`, the k-th emission lies within one poll-timeout above its deadline
`start + k*I`. -/
theorem scheduler_drift_correction (t : Target) (start : ℚ) (d : Nat → ℚ)
    (hTI : (t.timeout : ℚ) ≤ (t.interval : ℚ))
    (hd : ∀ k, 0 ≤ d k ∧ d k ≤ (t.timeout : ℚ)) :
    nextRunTime start (t.interval : ℚ) 0 = start ∧
    (∀ k, nextRunTime start (t.interval : ℚ) (k + 1) =
      nextRunTime start (t.interval : ℚ) k + (t.interval : ℚ)) ∧
    (∀ k, nextRunTime start (t.interval : ℚ) k = start + k * (t.interval : ℚ)) ∧
    (∀ k, start + k * (t.interval : ℚ) ≤ emitTime start (t.interval : ℚ) d k ∧
      emitTime start (t.interval : ℚ) d k ≤
        start + k * (t.interval : ℚ) + (t.timeout : ℚ)) := by
  refine ⟨rfl, fun k => rfl, nextRunTime_closed start _, fun k => ?_⟩
  have h := emitTime_bounds start (t.interval : ℚ) (t.timeout : ℚ) d hTI hd k
  rw [nextRunTime_closed] at h
  exact h

/-- C3 witness at concrete input: interval 5, timeout 2, zero cycle delays. -/
theorem scheduler_drift_correction_witness :
    ((2 : Int) : ℚ) ≤ ((5 : Int) : ℚ) ∧
    (∀ _k : Nat, (0 : ℚ) ≤ 0 ∧ (0 : ℚ) ≤ ((2 : Int) : ℚ)) ∧
    nextRunTime 0 ((5 : Int) : ℚ) 0 = 0 :=
  ⟨by norm_num, fun _ => ⟨le_refl 0, by norm_num⟩,
   (scheduler_drift_correction ⟨"t", 5, 2, 1⟩ 0 (fun _ => 0) (by norm_num)
      (fun _ => ⟨le_refl 0, by norm_num⟩)).1⟩

/-- C4: code bug — the producer never fills the sample's timestamp field: a
`TargetResult` built by a cycle running at wall-clock time 7 carries the
constant pydantic default timestamp 0.0, and after the pipeline processes it
for the registered target, `last_check` is 0, not the production time 7. -/
theorem sample_timestamp_not_production_time :
    (monitor_sample ⟨"t", 10, 2, 1⟩ 5 7).timestamp = 0 ∧
    (runLoop
        ⟨MonitorManager.empty.start_monitoring ⟨"t", 10, 2, 1⟩, 0, 0, 0, 0, [], 0⟩
        [⟨monitor_sample ⟨"t", 10, 2, 1⟩ 5 7, .none⟩]).manager.target_statuses.lookup 1 =
      some { last_check := some 0, last_value := some 5, check_count := 1,
             error_count := 0 } ∧
    (0 : ℚ) ≠ 7 := by
  decide

/-- C6: one poll invocation never raises (it is a total function of the
target and the run of its body), returns the sentinel `-1` or a non-negative
reading, returns the reading exactly when the body finishes within the
timeout, collapses body exceptions and timeouts to `-1`, and its wall-clock
duration is bounded by the target's timeout. -/
theorem poll_contract (t : Target) (run : PollRun) (_ht : 0 ≤ t.timeout) :
    (poll t run = -1 ∨ 0 ≤ poll t run) ∧
    (∀ duration reading : Nat, (duration : Int) ≤ t.timeout →
      poll t (.completes duration reading) = (reading : Int)) ∧
    (∀ duration reading : Nat, t.timeout < (duration : Int) →
      poll t (.completes duration reading) = -1) ∧
    (∀ duration : Nat, poll t (.raises duration) = -1) ∧
    pollElapsed t run ≤ t.timeout := by
  refine ⟨?_, ?_, ?_, fun _ => rfl, ?_⟩
  · cases run with
    | completes duration reading =>
        by_cases hd : t.timeout < (duration : Int)
        · exact Or.inl (by simp [poll, hd])
        · refine Or.inr ?_
          simp [poll, hd]
    | raises duration => exact Or.inl rfl
  · intro duration reading hdr
    simp [poll, not_lt.mpr hdr]
  · intro duration reading hdr
    simp [poll, hdr]
  · cases run <;> exact min_le_right _ _

/-- C6 witness at concrete input: a poll body finishing after 1 second with
reading 42 against timeout 2. -/
theorem poll_contract_witness :
    (0 : Int) ≤ (⟨"t", 10, 2, 1⟩ : Target).timeout ∧
    (poll ⟨"t", 10, 2, 1⟩ (.completes 1 42) = -1 ∨
      0 ≤ poll ⟨"t", 10, 2, 1⟩ (.completes 1 42)) :=
  ⟨by decide, (poll_contract ⟨"t", 10, 2, 1⟩ (.completes 1 42) (by decide)).1⟩

/-- C7: an exception at any stage of the per-item block (validation,
name resolution, status update, output handling, metrics) is caught at the
per-item boundary: the consumer's error counter and the processing-errors
metric are each incremented by exactly 1, and the loop goes on to process
the remaining items. -/
theorem pipeline_fault_contained (s : ProcState) (item : QItem)
    (rest : List QItem) (h : ¬ item.fault = .none) :
    (processItem s item).error_count = s.error_count + 1 ∧
    (processItem s item).metric_processing_errors =
      s.metric_processing_errors + 1 ∧
    runLoop s (item :: rest) = runLoop (processItem s item) rest := by
  obtain ⟨h1, h2⟩ := processItem_fault s item h
  exact ⟨h1, h2, rfl⟩

/-- C7 witness at concrete input: an item whose name resolution raises. -/
theorem pipeline_fault_contained_witness :
    ¬ (⟨⟨1, 5, 0⟩, .atResolve⟩ : QItem).fault = FaultPoint.none ∧
    (processItem ⟨MonitorManager.empty, 0, 0, 0, 0, [], 0⟩
        ⟨⟨1, 5, 0⟩, .atResolve⟩).error_count = 0 + 1 :=
  ⟨by decide,
   (pipeline_fault_contained ⟨MonitorManager.empty, 0, 0, 0, 0, [], 0⟩
      ⟨⟨1, 5, 0⟩, .atResolve⟩ [] (by decide)).1⟩

/-- C8: a creation request with `interval < timeout` is rejected with the
validation error and the registry is returned unchanged (the target is never
registered); a request with `interval ≥ timeout` succeeds, returning a
target with the requested fields and the fresh id, and (for a fresh id)
registering it. -/
theorem create_validation (m : MonitorManager) (c : TargetCreate)
    (fresh_id : TargetId) :
    (c.interval < c.timeout →
      add_target m c fresh_id =
        (.error "Interval must be equal to or greater than timeout", m)) ∧
    (c.timeout ≤ c.interval → 1 ≤ c.timeout →
      ∃ target : Target,
        (add_target m c fresh_id).1 = .ok target ∧
        target.name = c.name ∧ target.interval = c.interval ∧
        target.timeout = c.timeout ∧ target.id = fresh_id ∧
        (add_target m c fresh_id).2 = m.start_monitoring target ∧
        (m.tasks.hasKey fresh_id = false →
          (add_target m c fresh_id).2.tasks.hasKey fresh_id = true ∧
          (add_target m c fresh_id).2.targets.lookup fresh_id = some target)) := by
  constructor
  · intro h
    simp [add_target, check_interval, h]
  · intro h _
    have h' : ¬ c.interval < c.timeout := not_lt.mpr h
    refine ⟨⟨c.name, c.interval, c.timeout, fresh_id⟩, ?_, rfl, rfl, rfl, rfl, ?_, ?_⟩
    · simp [add_target, check_interval, h']
    · simp [add_target, check_interval, h']
    · intro hfresh
      constructor
      · simp [add_target, check_interval, h', MonitorManager.start_monitoring,
          hfresh, Dict.hasKey_insert]
      · simp [add_target, check_interval, h', MonitorManager.start_monitoring,
          hfresh, Dict.lookup_insert]

/-- C8 witness at concrete inputs: interval 1 < timeout 2 is rejected leaving
the empty registry untouched; interval 5 ≥ timeout 2 ≥ 1 succeeds. -/
theorem create_validation_witness :
    ((1 : Int) < 2 ∧
      add_target MonitorManager.empty ⟨"a", 1, 2⟩ 7 =
        (.error "Interval must be equal to or greater than timeout",
         MonitorManager.empty)) ∧
    ((2 : Int) ≤ 5 ∧ (1 : Int) ≤ 2 ∧
      ∃ target : Target,
        (add_target MonitorManager.empty ⟨"b", 5, 2⟩ 9).1 = .ok target ∧
        target.name = "b" ∧ target.interval = 5 ∧ target.timeout = 2 ∧
        target.id = 9 ∧
        (add_target MonitorManager.empty ⟨"b", 5, 2⟩ 9).2 =
          MonitorManager.empty.start_monitoring target ∧
        (MonitorManager.empty.tasks.hasKey 9 = false →
          (add_target MonitorManager.empty ⟨"b", 5, 2⟩ 9).2.tasks.hasKey 9 = true ∧
          (add_target MonitorManager.empty ⟨"b", 5, 2⟩ 9).2.targets.lookup 9 =
            some target)) :=
  ⟨⟨by decide, (create_validation MonitorManager.empty ⟨"a", 1, 2⟩ 7).1 (by decide)⟩,
   ⟨by decide, by decide,
    (create_validation MonitorManager.empty ⟨"b", 5, 2⟩ 9).2 (by decide) (by decide)⟩⟩

/-- C10: when the output sink's handle call raises for an item, the consumer
survives (error counter incremented) but the item's effects are only
partial: the registry status update has already taken effect, while
`processed_count` is not incremented, no output is recorded, and
`task_done` is never called for that item — so across the whole run the
queue's unfinished-task count stays strictly positive and `queue.join()`
in the shutdown drain can never return. -/
theorem handle_fault_incomplete_effects (s : ProcState) (item : QItem)
    (items : List QItem) (h : item.fault = .atHandle) (hmem : item ∈ items) :
    (processItem s item).manager =
      s.manager.update_target_status item.result.target_id item.result.value
        item.result.timestamp ∧
    (processItem s item).error_count = s.error_count + 1 ∧
    (processItem s item).processed_count = s.processed_count ∧
    (processItem s item).outputs = s.outputs ∧
    (processItem s item).task_done_count = s.task_done_count ∧
    0 < unfinishedTasks s items := by
  refine ⟨?_, ?_, ?_, ?_, ?_, ?_⟩
  · simp [processItem, onItemError, h]
  · simp [processItem, onItemError, h]
  · simp [processItem, onItemError, h]
  · simp [processItem, onItemError, h]
  · simp [processItem, onItemError, h]
  · have hc := countP_none_lt items item hmem h
    have ht := runLoop_task_done items s
    simp only [unfinishedTasks, ht]
    push_cast
    omega

/-- C10 witness at concrete input: a single-item queue whose handle call
raises. -/
theorem handle_fault_incomplete_effects_witness :
    (⟨⟨1, 5, 0⟩, .atHandle⟩ : QItem).fault = FaultPoint.atHandle ∧
    (⟨⟨1, 5, 0⟩, .atHandle⟩ : QItem) ∈ [(⟨⟨1, 5, 0⟩, .atHandle⟩ : QItem)] ∧
    0 < unfinishedTasks ⟨MonitorManager.empty, 0, 0, 0, 0, [], 0⟩
        [(⟨⟨1, 5, 0⟩, .atHandle⟩ : QItem)] :=
  ⟨rfl, List.mem_singleton.mpr rfl,
   (handle_fault_incomplete_effects ⟨MonitorManager.empty, 0, 0, 0, 0, [], 0⟩
      ⟨⟨1, 5, 0⟩, .atHandle⟩ [⟨⟨1, 5, 0⟩, .atHandle⟩]
      rfl (List.mem_singleton.mpr rfl)).2.2.2.2.2⟩

end Amaunator
